import Mathlib

/-!
# Lab launch widget with one-time-code countdown

Shallow embedding of `AzureFunctionButton`
(`src/Lab_Function_Code/lab_launch_component_w_otp.js`).

The React component keeps seven `useState` cells.  They are gathered in the record
`State`.  Each asynchronous handler is split at its single `await fetch(...)`:
the synchronous part before it (`...Start`, which also yields the request that is sent)
and the continuation that runs once the fetch settles (`...Resolve`).  The continuation
only calls setters with absolute values, so it is a function of the state at the moment
the fetch settles, which may differ from the state at the call: the countdown keeps
running during the `await`.  The interval callback uses a functional updater
(`prev => ...`), so a tick is a function of the current state as well.

Events (clicks, settled fetches, timer ticks) are handled one at a time and React commits a
render after each, so a handler's closure and the buttons' `disabled` attributes see the
current state.  A disabled button dispatches no click.  `step` and `run` do not track which
fetches are pending: they allow a completion at any time, which only adds reachable states.

Typing of JavaScript values:
* a string field that may be `null` or `undefined` is an `Option String`; the code only
  tests such a field for truthiness, renders it or passes it on, and `null` and `undefined`
  behave alike there; the empty string is falsy;
* a seconds value is `undefined` (absent field), `null` or an integer (spec section 6);
  JavaScript numbers are IEEE 754 doubles, so an integer in a parsed body is one that a
  double holds (`JsInt`) and `prev - 1` rounds to the nearest double (`roundDouble`);
* a response body is a JSON object of the endpoint's shape or JSON `null`, or
  `response.json()` rejects.
-/

namespace LabLaunch

/-! ## JavaScript values -/

/-- Truthiness of a possibly absent string: `undefined`, `null` and `""` are falsy. -/
def truthyStr : Option String → Bool
  | some s => s != ""
  | none => false

/-- The expression `a || d` for a possibly absent string `a` and a string literal `d`. -/
def jsOrStr (a : Option String) (d : String) : String :=
  match a with
  | some s => if s != "" then s else d
  | none => d

/-- The largest binary exponent of the unit in the last place of a finite double whose
significand is read as a 53-bit integer: the largest finite doubles are below
`2 ^ (53 + 971) = 2 ^ 1024`. -/
def maxUlpExp : Nat := 971

/-- Search for the least `e2 >= e` with `m < 2 ^ (53 + e2)`, giving up after `fuel` steps. -/
def ulpExpFrom : Nat → Nat → Nat → Nat
  | 0, _, e => e
  | fuel + 1, m, e => if m < 2 ^ (53 + e) then e else ulpExpFrom fuel m (e + 1)

/-- The exponent `e` of the spacing `2 ^ e` of the doubles around the magnitude `m`:
`0` below `2 ^ 53`, `1` from `2 ^ 53` to `2 ^ 54`, and so on. -/
def ulpExp (m : Nat) : Nat := ulpExpFrom maxUlpExp m 0

/-- The double nearest to the natural number `m`, ties to the even significand (the IEEE 754
default rounding), for `m` below `2 ^ 1024`. -/
def roundNat (m : Nat) : Nat :=
  if 2 * (m % 2 ^ ulpExp m) < 2 ^ ulpExp m then m / 2 ^ ulpExp m * 2 ^ ulpExp m
  else if 2 ^ ulpExp m < 2 * (m % 2 ^ ulpExp m) then (m / 2 ^ ulpExp m + 1) * 2 ^ ulpExp m
  else if m / 2 ^ ulpExp m % 2 = 0 then m / 2 ^ ulpExp m * 2 ^ ulpExp m
  else (m / 2 ^ ulpExp m + 1) * 2 ^ ulpExp m

/-- The double nearest to the integer `x`: the value of an arithmetic result `x`. -/
def roundDouble (x : Int) : Int :=
  if x < 0 then -(roundNat x.natAbs : Int) else (roundNat x.natAbs : Int)

/-- The integer is the value of a finite double: its magnitude is a multiple of the spacing
at that magnitude and the quotient fits in 53 bits. -/
def isDouble (x : Int) : Bool :=
  decide (x.natAbs % 2 ^ ulpExp x.natAbs = 0) &&
    decide (x.natAbs / 2 ^ ulpExp x.natAbs < 2 ^ 53)

/-- An integer-valued JavaScript number. -/
abbrev JsInt : Type := { n : Int // isDouble n = true }

/-- A seconds value: `undefined`, `null` or an integer. -/
inductive JsNumber (α : Type) where
  | undefined
  | null
  | int (n : α)
  deriving DecidableEq, Repr

/-- The value a setter stores when it is passed a number read from a parsed body. -/
def JsNumber.stored : JsNumber JsInt → JsNumber Int
  | .undefined => .undefined
  | .null => .null
  | .int n => .int n.val

/-- The comparison `x < 10`: `undefined` becomes `NaN` (false), `null` becomes `0` (true). -/
def jsLtTen : JsNumber Int → Bool
  | .undefined => false
  | .null => true
  | .int n => decide (n < 10)

/-- The object `new Date(arg)`, kept as the argument it was built from. -/
structure JsDate where
  arg : Option String
  deriving DecidableEq, Repr

/-! ## HTTP -/

/-- JSON object returned by the launch endpoint (`HttpTrigger1`); every field may be absent. -/
structure LaunchBody where
  error : Option String
  username : Option String
  password : Option String
  totpCode : Option String
  totpExpiryTime : Option String
  totpSecondsRemaining : JsNumber JsInt
  deriving DecidableEq, Repr

/-- JSON object returned by the refresh endpoint (`totptriggertest`); every field may be absent. -/
structure RefreshBody where
  error : Option String
  code : Option String
  expiryTime : Option String
  secondsRemaining : JsNumber JsInt
  deriving DecidableEq, Repr

/-- Outcome of `await response.json()`: the parsed object; JSON `null`, with the message of
the `TypeError` that the first property read on it throws (its wording depends on the
engine); or the message of the error thrown by the parser. -/
inductive JsonResult (β : Type) where
  | parsed (b : β)
  | null (typeError : String)
  | rejected (message : String)
  deriving DecidableEq, Repr

/-- A received HTTP response; the status is a three-digit code. -/
structure HttpResponse (β : Type) where
  status : Nat
  body : JsonResult β
  deriving DecidableEq, Repr

/-- The flag `response.ok`: the status is in the range 200-299. -/
def HttpResponse.ok {β : Type} (r : HttpResponse β) : Bool :=
  decide (200 ≤ r.status) && decide (r.status ≤ 299)

/-- Outcome of `await fetch(...)`: a response, or the message of the transport error thrown. -/
inductive FetchResult (β : Type) where
  | response (r : HttpResponse β)
  | rejected (message : String)
  deriving DecidableEq, Repr

/-- An outbound `fetch` call (both are `POST` with a JSON body). -/
inductive Request where
  | launch (url subscriptionId resourceGroup templateUrl : String)
  | refresh (url : String) (username : Option String)
  deriving DecidableEq, Repr

def launchUrl : String :=
  "https://simpleltest4framerbutton.azurewebsites.net/api/HttpTrigger1?"

def refreshUrl : String :=
  "https://simpleltest4framerbutton.azurewebsites.net/api/totptriggertest"

/-! ## Component state -/

/-- The seven `useState` cells of `AzureFunctionButton`. -/
structure State where
  responseData : Option LaunchBody
  loading : Bool
  error : Option String
  totpCode : Option String
  totpExpiry : Option JsDate
  secondsRemaining : JsNumber Int
  refreshingCode : Bool
  deriving DecidableEq, Repr

/-- The initial values passed to `useState`. -/
def initialState : State :=
  { responseData := none
    loading := false
    error := none
    totpCode := none
    totpExpiry := none
    secondsRemaining := JsNumber.int 0
    refreshingCode := false }

/-! ## Countdown timer -/

/-- The updater passed to `setSecondsRemaining` by the interval callback:
`prev <= 1 ? 0 : prev - 1`, the subtraction being double arithmetic. -/
def countdownUpdater (prev : Int) : Int :=
  if prev ≤ 1 then 0 else roundDouble (prev - 1)

/-- One firing of the interval.  The effect registers the interval only when
`secondsRemaining` is truthy (`if (!secondsRemaining) return`), and re-runs whenever the
value changes, so a tick happens only in such a state. -/
def tick (s : State) : State :=
  match s.secondsRemaining with
  | .undefined => s
  | .null => s
  | .int prev =>
    if prev = 0 then s
    else { s with secondsRemaining := JsNumber.int (countdownUpdater prev) }

/-- The state after `k` firings of the interval with nothing else in between. -/
def ticks : Nat → State → State
  | 0, s => s
  | k + 1, s => ticks k (tick s)

/-! ## refreshTotpCode -/

/-- The part of `refreshTotpCode` before `await fetch`: `none` is the early `return`. -/
def refreshTotpCodeStart (s : State) : Option (State × Request) :=
  match s.responseData with
  | none => none
  | some responseData =>
    if !truthyStr responseData.username then none
    else some ({ s with refreshingCode := true }, Request.refresh refreshUrl responseData.username)

/-- The `try` block of `refreshTotpCode` from the settled fetch on: the state after the
setters that ran, and the message of the error thrown, if one was. -/
def refreshTotpCodeTry (s : State) (r : FetchResult RefreshBody) : State × Option String :=
  match r with
  | .rejected message => (s, some message)
  | .response response =>
    if !response.ok then
      match response.body with
      | .rejected message => (s, some message)
      | .null typeError => (s, some typeError)
      | .parsed errorData =>
        (s, some (jsOrStr errorData.error "Failed to refresh verification code"))
    else
      match response.body with
      | .rejected message => (s, some message)
      | .null typeError => (s, some typeError)
      | .parsed data =>
        ({ s with
           totpCode := data.code
           totpExpiry := some (JsDate.mk data.expiryTime)
           secondsRemaining := data.secondsRemaining.stored }, none)

/-- The continuation of `refreshTotpCode` after the fetch settles: `try`, `catch`, `finally`. -/
def refreshTotpCodeResolve (s : State) (r : FetchResult RefreshBody) : State :=
  let afterCatch :=
    match (refreshTotpCodeTry s r).2 with
    | none => (refreshTotpCodeTry s r).1
    | some message => { (refreshTotpCodeTry s r).1 with error := some message }
  { afterCatch with refreshingCode := false }

/-- A whole call of `refreshTotpCode` with nothing interleaved: the final state and the
requests sent, where `server` answers the request. -/
def refreshTotpCode (s : State) (server : Request → FetchResult RefreshBody) :
    State × List Request :=
  match refreshTotpCodeStart s with
  | none => (s, [])
  | some (s1, req) => (refreshTotpCodeResolve s1 (server req), [req])

/-! ## handleClick -/

/-- The part of `handleClick` before `await fetch`. -/
def handleClickStart (s : State) : State × Request :=
  ({ s with loading := true, error := none },
   Request.launch launchUrl
     "2a53178d-15e9-4710-b06f-e289b4e672c0"
     "FunctionAppTests"
     "https://raw.githubusercontent.com/Danny-Kal/Lab_Bicep_Templates/refs/heads/main/1stlabdraft.json")

/-- The `try` block of `handleClick` from the settled fetch on: the state after the setters
that ran, and the message of the error thrown, if one was.  On a 2xx answer whose body is
JSON `null`, `setResponseData(null)` runs before `result.totpCode` throws. -/
def handleClickTry (s : State) (r : FetchResult LaunchBody) : State × Option String :=
  match r with
  | .rejected message => (s, some message)
  | .response response =>
    if !response.ok then
      match response.body with
      | .rejected message => (s, some message)
      | .null typeError => (s, some typeError)
      | .parsed errorData =>
        (s, some (jsOrStr errorData.error ("Request failed: " ++ toString response.status)))
    else
      match response.body with
      | .rejected message => (s, some message)
      | .null typeError => ({ s with responseData := none }, some typeError)
      | .parsed result =>
        if truthyStr result.totpCode then
          ({ s with
             responseData := some result
             totpCode := result.totpCode
             totpExpiry := some (JsDate.mk result.totpExpiryTime)
             secondsRemaining := result.totpSecondsRemaining.stored }, none)
        else ({ s with responseData := some result }, none)

/-- The continuation of `handleClick` after the fetch settles: `try`, `catch`, `finally`. -/
def handleClickResolve (s : State) (r : FetchResult LaunchBody) : State :=
  let afterCatch :=
    match (handleClickTry s r).2 with
    | none => (handleClickTry s r).1
    | some message => { (handleClickTry s r).1 with error := some message }
  { afterCatch with loading := false }

/-- A whole call of `handleClick` with nothing interleaved. -/
def handleClick (s : State) (server : Request → FetchResult LaunchBody) :
    State × List Request :=
  (handleClickResolve (handleClickStart s).1 (server (handleClickStart s).2),
    [(handleClickStart s).2])

/-! ## Rendering -/

/-- A rendered `<button>`: its label and its `disabled` attribute. -/
structure Button where
  label : String
  disabled : Bool
  deriving DecidableEq, Repr

/-- The content of the timer span: the template literal `${secondsRemaining}s remaining`
with the number that fills it, or the string "Code expired - please refresh". -/
inductive TimerText where
  | remaining (seconds : Int)
  | expired
  deriving DecidableEq, Repr

/-- The ternary under the MFA header (`totpCode ? ... : ...`).  The first branch holds the
code span, the colour of the progress bar and the timer span; the second the paragraph shown
when no code is held.  The bar's `width` is a floating-point percentage and is left out. -/
inductive OtpDisplay where
  | codeDisplay (code : String) (barColor : String) (timer : TimerText)
  | noCode (text : String)
  deriving DecidableEq, Repr

/-- The block rendered under `responseData && (...)`. -/
structure ResponsePanel where
  username : Option String
  password : Option String
  refreshButton : Button
  mfa : OtpDisplay
  deriving DecidableEq, Repr

/-- What the component returns. -/
structure View where
  launchButton : Button
  response : Option ResponsePanel
  errorText : Option String
  deriving DecidableEq, Repr

def expiredText : String := "Code expired - please refresh"

def noCodeText : String := "No verification code available. Click 'Refresh Code'."

/-- The text of the timer span, given how a number is printed inside a template literal
(in decimal digits for an integer of magnitude up to `2 ^ 53`; a larger double prints the
shortest digits that read back as the same double). -/
def TimerText.text (printNumber : Int → String) : TimerText → String
  | .remaining n => printNumber n ++ "s remaining"
  | .expired => expiredText

/-- The timer span: `secondsRemaining > 0 ? "<n>s remaining" : "Code expired - please refresh"`.
With `undefined` the comparison is `NaN > 0` and with `null` it is `0 > 0`, both false. -/
def timerText : JsNumber Int → TimerText
  | .int n => if 0 < n then TimerText.remaining n else TimerText.expired
  | .null => TimerText.expired
  | .undefined => TimerText.expired

/-- The MFA code render: `totpCode ? <div>code, bar, timer text</div> : <p>no code</p>`. -/
def otpDisplay (s : State) : OtpDisplay :=
  match s.totpCode with
  | none => OtpDisplay.noCode noCodeText
  | some code =>
    if code != "" then
      OtpDisplay.codeDisplay code
        (if jsLtTen s.secondsRemaining then "#ff4d4d" else "#4CAF50")
        (timerText s.secondsRemaining)
    else OtpDisplay.noCode noCodeText

/-- The refresh button: `onClick={refreshTotpCode}`, `disabled={refreshingCode}`. -/
def refreshButton (s : State) : Button :=
  { label := if s.refreshingCode then "Refreshing..." else "Refresh Code"
    disabled := s.refreshingCode }

/-- The launch button: `onClick={handleClick}`, `disabled={loading}`. -/
def launchButton (s : State) : Button :=
  { label := if s.loading then "Launching Lab..." else "Launch Lab Environment"
    disabled := s.loading }

/-- The JSX returned by `AzureFunctionButton`. -/
def render (s : State) : View :=
  { launchButton := launchButton s
    response :=
      match s.responseData with
      | none => none
      | some responseData =>
        some { username := responseData.username
               password := responseData.password
               refreshButton := refreshButton s
               mfa := otpDisplay s }
    errorText :=
      match s.error with
      | none => none
      | some e => if e != "" then some ("Error: " ++ e) else none }

/-- The code shown by the display, if it shows one. -/
def OtpDisplay.shownCode : OtpDisplay → Option String
  | .codeDisplay code _ _ => some code
  | .noCode _ => none

/-- The display shows the expired message. -/
def OtpDisplay.showsExpired : OtpDisplay → Bool
  | .codeDisplay _ _ timer => decide (timer = TimerText.expired)
  | .noCode _ => false

/-! ## User and timer events -/

/-- A click on the refresh button.  The button exists only when the response panel is
rendered, and a disabled button dispatches no click. -/
def clickRefresh (s : State) : State × List Request :=
  match (render s).response with
  | none => (s, [])
  | some panel =>
    if panel.refreshButton.disabled then (s, [])
    else
      match refreshTotpCodeStart s with
      | none => (s, [])
      | some (s1, req) => (s1, [req])

/-- A click on the launch button; a disabled button dispatches no click. -/
def clickLaunch (s : State) : State × List Request :=
  if (render s).launchButton.disabled then (s, [])
  else ((handleClickStart s).1, [(handleClickStart s).2])

/-- What can happen to a mounted widget. -/
inductive Event where
  | clickLaunch
  | launchResolved (r : FetchResult LaunchBody)
  | clickRefresh
  | refreshResolved (r : FetchResult RefreshBody)
  | tick
  deriving DecidableEq, Repr

/-- One event: the next state and the requests it sends. -/
def step (s : State) : Event → State × List Request
  | .clickLaunch => clickLaunch s
  | .launchResolved r => (handleClickResolve s r, [])
  | .clickRefresh => clickRefresh s
  | .refreshResolved r => (refreshTotpCodeResolve s r, [])
  | .tick => (tick s, [])

/-- A sequence of events: the final state and all requests sent, in order. -/
def run (s : State) : List Event → State × List Request
  | [] => (s, [])
  | e :: es => ((run (step s e).1 es).1, (step s e).2 ++ (run (step s e).1 es).2)

/-- The seconds value an event writes into the state, if it writes one: a successful refresh
writes `data.secondsRemaining`, a successful launch with a truthy `totpCode` writes
`result.totpSecondsRemaining`. -/
def Event.writtenSeconds : Event → Option (JsNumber JsInt)
  | .refreshResolved (.response r) =>
    if r.ok then
      match r.body with
      | .parsed data => some data.secondsRemaining
      | .null _ => none
      | .rejected _ => none
    else none
  | .launchResolved (.response r) =>
    if r.ok then
      match r.body with
      | .parsed result => if truthyStr result.totpCode then some result.totpSecondsRemaining else none
      | .null _ => none
      | .rejected _ => none
    else none
  | _ => none

/-- The event writes no seconds value, or an integer that is at least `0`. -/
def Event.secondsNonneg (e : Event) : Bool :=
  match e.writtenSeconds with
  | none => true
  | some (.int n) => decide (0 ≤ n.val)
  | some .null => false
  | some .undefined => false

/-! ## Sample data -/

/-- A launch result with credentials and no OTP fields. -/
def sampleCredentials : LaunchBody :=
  { error := none, username := some "labuser", password := some "pw"
    totpCode := none, totpExpiryTime := none, totpSecondsRemaining := JsNumber.undefined }

/-- A launched widget that holds the code "123456" with 17 seconds left. -/
def sampleHolding : State :=
  { initialState with
    responseData := some sampleCredentials
    totpCode := some "123456"
    totpExpiry := some (JsDate.mk (some "2025-01-01T00:00:30Z"))
    secondsRemaining := JsNumber.int 17 }

/-- A launched widget that holds the code "123456" whose countdown has reached 0. -/
def sampleExpired : State :=
  { sampleHolding with secondsRemaining := JsNumber.int 0 }

/-- A launch result with the code "123456" and the given seconds value. -/
def sampleOtp (seconds : JsInt) : LaunchBody :=
  { error := none, username := some "labuser", password := some "pw"
    totpCode := some "123456", totpExpiryTime := some "2025-01-01T00:00:30Z"
    totpSecondsRemaining := JsNumber.int seconds }

/-- The answer of scenario A: 200 with `totpCode:"123456"` and `totpSecondsRemaining:30`. -/
def scenarioA : FetchResult LaunchBody :=
  FetchResult.response { status := 200, body := JsonResult.parsed (sampleOtp ⟨30, by decide⟩) }

/-- The body of scenario B: `{"error":"quota exceeded"}`. -/
def quotaExceeded : LaunchBody :=
  { error := some "quota exceeded", username := none, password := none
    totpCode := none, totpExpiryTime := none, totpSecondsRemaining := JsNumber.undefined }

/-- The answer of scenario B: 500 with the JSON body `{"error":"quota exceeded"}`. -/
def scenarioB : FetchResult LaunchBody :=
  FetchResult.response { status := 500, body := JsonResult.parsed quotaExceeded }

/-- A 500 launch answer whose body is an HTML page: `response.json()` rejects. -/
def htmlError : FetchResult LaunchBody :=
  FetchResult.response
    { status := 500, body := JsonResult.rejected "Unexpected token < in JSON at position 0" }

/-- A 200 launch answer with credentials and no OTP fields. -/
def credentialsOnly : FetchResult LaunchBody :=
  FetchResult.response { status := 200, body := JsonResult.parsed sampleCredentials }

/-- A 200 launch answer whose `totpSecondsRemaining` is the integer `-5`. -/
def negativeSeconds : FetchResult LaunchBody :=
  FetchResult.response { status := 200, body := JsonResult.parsed (sampleOtp ⟨-5, by decide⟩) }

/-- A 200 launch answer whose `totpSecondsRemaining` is `2 ^ 54 = 18014398509481984`. -/
def hugeSeconds : FetchResult LaunchBody :=
  FetchResult.response
    { status := 200, body := JsonResult.parsed (sampleOtp ⟨18014398509481984, by decide⟩) }

/-- A refresh result with code "654321" and 30 seconds. -/
def sampleFresh : RefreshBody :=
  { error := none, code := some "654321", expiryTime := some "2025-01-01T00:01:00Z"
    secondsRemaining := JsNumber.int ⟨30, by decide⟩ }

/-- A 200 refresh answer with code "654321" and 30 seconds. -/
def freshCode : FetchResult RefreshBody :=
  FetchResult.response { status := 200, body := JsonResult.parsed sampleFresh }

/-- The body of a failed refresh: `{"error":"totp backend down"}`. -/
def backendDown : RefreshBody :=
  { error := some "totp backend down", code := none, expiryTime := none
    secondsRemaining := JsNumber.undefined }

/-- A 500 refresh answer with the JSON body `{"error":"totp backend down"}`. -/
def refreshDown : FetchResult RefreshBody :=
  FetchResult.response { status := 500, body := JsonResult.parsed backendDown }

/-! ## Vocabulary of the properties -/

/-- The controller state `Empty`: no code, no expiry, countdown at `0`, not refreshing. -/
def isEmptyOtp (s : State) : Bool :=
  s.totpCode.isNone && s.totpExpiry.isNone && decide (s.secondsRemaining = JsNumber.int 0) &&
    !s.refreshingCode

/-- A fetch that failed: a transport error, or a response whose status is not 2xx. -/
def FetchResult.failed {β : Type} : FetchResult β → Bool
  | .rejected _ => true
  | .response r => !r.ok

/-- The request goes to the refresh endpoint. -/
def Request.isRefresh : Request → Bool
  | .refresh _ _ => true
  | .launch _ _ _ _ => false

/-- The event is the settling of a refresh fetch. -/
def Event.isRefreshResolved : Event → Bool
  | .refreshResolved _ => true
  | _ => false

end LabLaunch

namespace LabLaunch

/-! ## Rounding to doubles -/

theorem ulpExpFrom_spec (fuel m e : Nat) :
    e ≤ ulpExpFrom fuel m e ∧ ulpExpFrom fuel m e ≤ e + fuel ∧
    (m < 2 ^ (53 + (e + fuel)) → m < 2 ^ (53 + ulpExpFrom fuel m e)) ∧
    (∀ e2, e ≤ e2 → m < 2 ^ (53 + e2) → ulpExpFrom fuel m e ≤ e2) := by
  induction fuel generalizing e with
  | zero =>
    have hval : ulpExpFrom 0 m e = e := rfl
    rw [hval]
    exact ⟨le_refl _, le_refl _, fun h => h, fun e2 he _ => he⟩
  | succ fuel ih =>
    by_cases h : m < 2 ^ (53 + e)
    · have hval : ulpExpFrom (fuel + 1) m e = e := by simp [ulpExpFrom, h]
      rw [hval]
      exact ⟨le_refl _, by omega, fun _ => h, fun e2 he _ => he⟩
    · have hval : ulpExpFrom (fuel + 1) m e = ulpExpFrom fuel m (e + 1) := by
        simp [ulpExpFrom, h]
      rw [hval]
      obtain ⟨h1, h2, h3, h4⟩ := ih (e + 1)
      refine ⟨by omega, by omega, ?_, ?_⟩
      · intro hm
        apply h3
        have hexp : 53 + (e + 1 + fuel) = 53 + (e + (fuel + 1)) := by omega
        rw [hexp]
        exact hm
      · intro e2 he hm
        have hne : e ≠ e2 := by
          intro heq
          subst heq
          exact h hm
        exact h4 e2 (by omega) hm

theorem ulpExp_le (m : Nat) : ulpExp m ≤ maxUlpExp := by
  have h := (ulpExpFrom_spec maxUlpExp m 0).2.1
  unfold ulpExp
  omega

theorem ulpExp_min (m e2 : Nat) (h : m < 2 ^ (53 + e2)) : ulpExp m ≤ e2 :=
  (ulpExpFrom_spec maxUlpExp m 0).2.2.2 e2 (Nat.zero_le _) h

theorem lt_pow_ulpExp (m : Nat) (h : m < 2 ^ (53 + maxUlpExp)) : m < 2 ^ (53 + ulpExp m) :=
  (ulpExpFrom_spec maxUlpExp m 0).2.2.1 (by rw [Nat.zero_add]; exact h)

theorem ulpExp_small (m : Nat) (h : m < 2 ^ 53) : ulpExp m = 0 :=
  Nat.le_zero.mp (ulpExp_min m 0 (by simpa using h))

theorem roundNat_small (m : Nat) (h : m < 2 ^ 53) : roundNat m = m := by
  simp [roundNat, ulpExp_small m h, Nat.mod_one]

theorem roundNat_cases (m : Nat) :
    roundNat m = m / 2 ^ ulpExp m * 2 ^ ulpExp m ∨
    roundNat m = (m / 2 ^ ulpExp m + 1) * 2 ^ ulpExp m := by
  unfold roundNat
  split_ifs <;> simp

theorem isDouble_iff (x : Int) :
    isDouble x = true ↔
      x.natAbs % 2 ^ ulpExp x.natAbs = 0 ∧ x.natAbs / 2 ^ ulpExp x.natAbs < 2 ^ 53 := by
  simp [isDouble]

theorem lt_pow_of_quot_lt (m : Nat) (h : m / 2 ^ ulpExp m < 2 ^ 53) :
    m < 2 ^ (53 + ulpExp m) := by
  rw [pow_add]
  exact (Nat.div_lt_iff_lt_mul (by positivity)).mp h

theorem double_of_dvd (r e : Nat) (hr : r < 2 ^ (53 + maxUlpExp)) (hdvd : 2 ^ e ∣ r)
    (hle : r ≤ 2 ^ (53 + e)) :
    r % 2 ^ ulpExp r = 0 ∧ r / 2 ^ ulpExp r < 2 ^ 53 := by
  refine ⟨?_, ?_⟩
  · apply Nat.mod_eq_zero_of_dvd
    by_cases hlt : r < 2 ^ (53 + e)
    · exact dvd_trans (pow_dvd_pow 2 (ulpExp_min r e hlt)) hdvd
    · have heq : r = 2 ^ (53 + e) := le_antisymm hle (not_lt.mp hlt)
      have hmin : ulpExp (2 ^ (53 + e)) ≤ e + 1 :=
        ulpExp_min _ _ (Nat.pow_lt_pow_right (by norm_num) (by omega))
      rw [heq]
      apply pow_dvd_pow
      omega
  · rw [Nat.div_lt_iff_lt_mul (by positivity), ← pow_add]
    exact lt_pow_ulpExp r hr

/-- Subtracting one from a double `p >= 1` and rounding gives a double that is at most `p`. -/
theorem roundNat_pred (p : Nat) (hp1 : p % 2 ^ ulpExp p = 0)
    (hp2 : p / 2 ^ ulpExp p < 2 ^ 53) :
    roundNat (p - 1) ≤ p ∧
    roundNat (p - 1) % 2 ^ ulpExp (roundNat (p - 1)) = 0 ∧
    roundNat (p - 1) / 2 ^ ulpExp (roundNat (p - 1)) < 2 ^ 53 := by
  have hplt := lt_pow_of_quot_lt p hp2
  have hpmax : p < 2 ^ (53 + maxUlpExp) :=
    lt_of_lt_of_le hplt
      (Nat.pow_le_pow_right (by norm_num) (Nat.add_le_add_left (ulpExp_le p) 53))
  have hmono : ulpExp (p - 1) ≤ ulpExp p :=
    ulpExp_min _ _ (lt_of_le_of_lt (Nat.sub_le p 1) hplt)
  have hdvd : 2 ^ ulpExp (p - 1) ∣ p :=
    dvd_trans (pow_dvd_pow 2 hmono) (Nat.dvd_of_mod_eq_zero hp1)
  have hpos : 0 < 2 ^ ulpExp (p - 1) := by positivity
  have hq : (p - 1) / 2 ^ ulpExp (p - 1) < 2 ^ 53 := by
    rw [Nat.div_lt_iff_lt_mul hpos, ← pow_add]
    exact lt_pow_ulpExp _ (lt_of_le_of_lt (Nat.sub_le p 1) hpmax)
  have hdown : (p - 1) / 2 ^ ulpExp (p - 1) * 2 ^ ulpExp (p - 1) ≤ p :=
    le_trans (Nat.div_mul_le_self _ _) (Nat.sub_le p 1)
  have hup : 1 ≤ p → ((p - 1) / 2 ^ ulpExp (p - 1) + 1) * 2 ^ ulpExp (p - 1) ≤ p := by
    intro h1
    obtain ⟨c, hc⟩ := hdvd
    have hc2 : p = c * 2 ^ ulpExp (p - 1) := hc.trans (mul_comm _ _)
    have hlt : (p - 1) / 2 ^ ulpExp (p - 1) < c := by
      rw [Nat.div_lt_iff_lt_mul hpos]
      exact lt_of_lt_of_le (by omega) (le_of_eq hc2)
    exact le_trans (Nat.mul_le_mul_right _ hlt) (le_of_eq hc2.symm)
  have hle : roundNat (p - 1) ≤ p := by
    by_cases h1 : 1 ≤ p
    · rcases roundNat_cases (p - 1) with h | h
      · rw [h]; exact hdown
      · rw [h]; exact hup h1
    · have hp0 : p = 0 := by omega
      subst hp0
      simp [roundNat]
  refine ⟨hle, ?_⟩
  apply double_of_dvd _ (ulpExp (p - 1)) (lt_of_le_of_lt hle hpmax)
  · rcases roundNat_cases (p - 1) with h | h <;> rw [h] <;> exact Dvd.intro_left _ rfl
  · have hb : ((p - 1) / 2 ^ ulpExp (p - 1) + 1) * 2 ^ ulpExp (p - 1)
        ≤ 2 ^ (53 + ulpExp (p - 1)) := by
      rw [pow_add]
      exact Nat.mul_le_mul_right _ hq
    have hb2 : (p - 1) / 2 ^ ulpExp (p - 1) * 2 ^ ulpExp (p - 1)
        ≤ 2 ^ (53 + ulpExp (p - 1)) := by
      rw [pow_add]
      exact Nat.mul_le_mul_right _ (le_of_lt hq)
    rcases roundNat_cases (p - 1) with h | h <;> rw [h] <;> assumption

/-! ## The countdown -/

theorem countdownUpdater_nonneg (prev : Int) : 0 ≤ countdownUpdater prev := by
  unfold countdownUpdater
  split_ifs with h
  · exact le_refl 0
  · have hneg : ¬ (prev - 1 < 0) := by omega
    simp only [roundDouble, hneg, if_false]
    exact Int.natCast_nonneg _

/-- Below `2 ^ 53` the subtraction is exact. -/
theorem countdownUpdater_exact (prev : Int) (hb : prev ≤ 9007199254740992) :
    countdownUpdater prev = max (prev - 1) 0 := by
  unfold countdownUpdater
  split_ifs with h
  · exact (max_eq_right (by omega)).symm
  · have hneg : ¬ (prev - 1 < 0) := by omega
    have hsmall : (prev - 1).natAbs < 2 ^ 53 := by
      have h53 : (2 : Nat) ^ 53 = 9007199254740992 := by norm_num
      omega
    simp only [roundDouble, hneg, if_false, roundNat_small _ hsmall]
    rw [max_eq_left (by omega)]
    omega

/-- On a double that is at least `0`, the updater gives a double that is not larger. -/
theorem countdownUpdater_double (n : Int) (h0 : 0 ≤ n) (hd : isDouble n = true) :
    countdownUpdater n ≤ n ∧ isDouble (countdownUpdater n) = true := by
  unfold countdownUpdater
  split_ifs with h
  · exact ⟨h0, by decide⟩
  · have hneg : ¬ (n - 1 < 0) := by omega
    obtain ⟨hd1, hd2⟩ := (isDouble_iff n).mp hd
    obtain ⟨r1, r2, r3⟩ := roundNat_pred n.natAbs hd1 hd2
    have habs : (n - 1).natAbs = n.natAbs - 1 := by omega
    simp only [roundDouble, hneg, if_false, habs]
    refine ⟨by omega, ?_⟩
    rw [isDouble_iff]
    simpa using ⟨r2, r3⟩

theorem tick_seconds_exact (s : State) (prev : Int) (h : s.secondsRemaining = JsNumber.int prev)
    (hb : prev ≤ 9007199254740992) :
    (tick s).secondsRemaining = JsNumber.int (max (prev - 1) 0) := by
  unfold tick
  rw [h]
  by_cases h0 : prev = 0
  · subst h0
    simp [h]
  · simp [h0, countdownUpdater_exact prev hb]

theorem tick_fields (s : State) :
    (tick s).responseData = s.responseData ∧ (tick s).loading = s.loading ∧
      (tick s).error = s.error ∧ (tick s).totpCode = s.totpCode ∧
      (tick s).totpExpiry = s.totpExpiry ∧ (tick s).refreshingCode = s.refreshingCode := by
  unfold tick
  cases hsr : s.secondsRemaining with
  | undefined => simp
  | null => simp
  | int prev =>
    by_cases h0 : prev = 0
    · simp [h0]
    · simp [h0]

theorem ticks_fields (k : Nat) (s : State) :
    (ticks k s).responseData = s.responseData ∧ (ticks k s).loading = s.loading ∧
      (ticks k s).error = s.error ∧ (ticks k s).totpCode = s.totpCode ∧
      (ticks k s).totpExpiry = s.totpExpiry ∧
      (ticks k s).refreshingCode = s.refreshingCode := by
  induction k generalizing s with
  | zero => simp [ticks]
  | succ k ih =>
    obtain ⟨h1, h2, h3, h4, h5, h6⟩ := ih (tick s)
    obtain ⟨t1, t2, t3, t4, t5, t6⟩ := tick_fields s
    simp only [ticks]
    exact ⟨h1.trans t1, h2.trans t2, h3.trans t3, h4.trans t4, h5.trans t5, h6.trans t6⟩

theorem ticks_seconds (k : Nat) (s : State) (n : Int) (h0 : 0 ≤ n)
    (hb : n ≤ 9007199254740992) (h : s.secondsRemaining = JsNumber.int n) :
    (ticks k s).secondsRemaining = JsNumber.int (max (n - (k : Int)) 0) := by
  induction k generalizing s n with
  | zero => simp [ticks, h, h0]
  | succ k ih =>
    simp only [ticks]
    rw [ih (tick s) (max (n - 1) 0) (le_max_right _ _) (max_le (by omega) (by omega))
      (tick_seconds_exact s n h hb)]
    congr 1
    push_cast
    omega

theorem tick_seconds_congr (s1 s2 : State) (h : s1.secondsRemaining = s2.secondsRemaining) :
    (tick s1).secondsRemaining = (tick s2).secondsRemaining := by
  unfold tick
  rw [h]
  cases hsr : s2.secondsRemaining with
  | undefined => simp [h, hsr]
  | null => simp [h, hsr]
  | int prev =>
    by_cases h0 : prev = 0
    · simp [h0, h, hsr]
    · simp [h0]

theorem ticks_seconds_congr (k : Nat) (s1 s2 : State)
    (h : s1.secondsRemaining = s2.secondsRemaining) :
    (ticks k s1).secondsRemaining = (ticks k s2).secondsRemaining := by
  induction k generalizing s1 s2 with
  | zero => simpa [ticks] using h
  | succ k ih =>
    simp only [ticks]
    exact ih _ _ (tick_seconds_congr s1 s2 h)

theorem ticks_empty (k : Nat) (s : State) (h : isEmptyOtp s = true) :
    isEmptyOtp (ticks k s) = true := by
  have hsec : s.secondsRemaining = JsNumber.int 0 := by
    simp [isEmptyOtp] at h
    exact h.1.2
  obtain ⟨_, _, _, h4, h5, h6⟩ := ticks_fields k s
  have h7 := ticks_seconds k s 0 (le_refl 0) (by norm_num) hsec
  have h8 : max (0 - (k : Int)) 0 = 0 := max_eq_right (by omega)
  rw [h8] at h7
  simp only [isEmptyOtp, h4, h5, h6, h7]
  simpa [isEmptyOtp, hsec] using h

end LabLaunch

namespace LabLaunch

/-! ## The continuations in closed form -/

theorem refreshTotpCodeResolve_ok (mid : State) (resp : HttpResponse RefreshBody)
    (data : RefreshBody) (hok : resp.ok = true) (hbody : resp.body = JsonResult.parsed data) :
    refreshTotpCodeResolve mid (FetchResult.response resp)
      = { mid with
          totpCode := data.code
          totpExpiry := some (JsDate.mk data.expiryTime)
          secondsRemaining := data.secondsRemaining.stored
          refreshingCode := false } := by
  simp [refreshTotpCodeResolve, refreshTotpCodeTry, hok, hbody]

theorem refreshTotpCodeResolve_failed (s : State) (r : FetchResult RefreshBody)
    (hfail : r.failed = true) :
    (refreshTotpCodeResolve s r).totpCode = s.totpCode ∧
    (refreshTotpCodeResolve s r).totpExpiry = s.totpExpiry ∧
    (refreshTotpCodeResolve s r).secondsRemaining = s.secondsRemaining ∧
    (refreshTotpCodeResolve s r).responseData = s.responseData ∧
    (refreshTotpCodeResolve s r).loading = s.loading ∧
    (refreshTotpCodeResolve s r).refreshingCode = false := by
  cases r with
  | rejected m => simp [refreshTotpCodeResolve, refreshTotpCodeTry]
  | response resp =>
    have hok : resp.ok = false := by simpa [FetchResult.failed] using hfail
    cases hb : resp.body with
    | parsed errorData => simp [refreshTotpCodeResolve, refreshTotpCodeTry, hok, hb]
    | null m => simp [refreshTotpCodeResolve, refreshTotpCodeTry, hok, hb]
    | rejected m => simp [refreshTotpCodeResolve, refreshTotpCodeTry, hok, hb]

theorem refreshTotpCodeResolve_failed_error (s : State) (r : FetchResult RefreshBody)
    (hfail : r.failed = true) :
    (∀ m, r = FetchResult.rejected m → (refreshTotpCodeResolve s r).error = some m) ∧
    (∀ resp m, r = FetchResult.response resp →
      (resp.body = JsonResult.rejected m ∨ resp.body = JsonResult.null m) →
      (refreshTotpCodeResolve s r).error = some m) ∧
    (∀ resp errorData m, r = FetchResult.response resp →
      resp.body = JsonResult.parsed errorData → errorData.error = some m → m ≠ "" →
      (refreshTotpCodeResolve s r).error = some m) ∧
    (∀ resp errorData, r = FetchResult.response resp →
      resp.body = JsonResult.parsed errorData →
      (errorData.error = none ∨ errorData.error = some "") →
      (refreshTotpCodeResolve s r).error = some "Failed to refresh verification code") := by
  refine ⟨?_, ?_, ?_, ?_⟩
  · intro m hr
    subst hr
    simp [refreshTotpCodeResolve, refreshTotpCodeTry]
  · intro resp m hr hb
    subst hr
    have hok : resp.ok = false := by simpa [FetchResult.failed] using hfail
    rcases hb with hb | hb <;> simp [refreshTotpCodeResolve, refreshTotpCodeTry, hok, hb]
  · intro resp errorData m hr hb he hne
    subst hr
    have hok : resp.ok = false := by simpa [FetchResult.failed] using hfail
    simp [refreshTotpCodeResolve, refreshTotpCodeTry, hok, hb, he, jsOrStr, hne]
  · intro resp errorData hr hb he
    subst hr
    have hok : resp.ok = false := by simpa [FetchResult.failed] using hfail
    rcases he with he | he <;>
      simp [refreshTotpCodeResolve, refreshTotpCodeTry, hok, hb, he, jsOrStr]

theorem handleClickResolve_fail_parsed (mid : State) (resp : HttpResponse LaunchBody)
    (errorData : LaunchBody) (hok : resp.ok = false)
    (hbody : resp.body = JsonResult.parsed errorData) :
    handleClickResolve mid (FetchResult.response resp)
      = { mid with
          loading := false
          error := some (jsOrStr errorData.error
            ("Request failed: " ++ toString resp.status)) } := by
  simp [handleClickResolve, handleClickTry, hok, hbody]

theorem handleClickResolve_ok_noCode (mid : State) (resp : HttpResponse LaunchBody)
    (result : LaunchBody) (hok : resp.ok = true) (hbody : resp.body = JsonResult.parsed result)
    (hc : truthyStr result.totpCode = false) :
    handleClickResolve mid (FetchResult.response resp)
      = { mid with responseData := some result, loading := false } := by
  simp [handleClickResolve, handleClickTry, hok, hbody, hc]

theorem handleClickResolve_ok_code (mid : State) (resp : HttpResponse LaunchBody)
    (result : LaunchBody) (hok : resp.ok = true) (hbody : resp.body = JsonResult.parsed result)
    (hc : truthyStr result.totpCode = true) :
    handleClickResolve mid (FetchResult.response resp)
      = { mid with
          responseData := some result
          loading := false
          totpCode := result.totpCode
          totpExpiry := some (JsDate.mk result.totpExpiryTime)
          secondsRemaining := result.totpSecondsRemaining.stored } := by
  simp [handleClickResolve, handleClickTry, hok, hbody, hc]

theorem handleClickResolve_refreshing (s : State) (r : FetchResult LaunchBody) :
    (handleClickResolve s r).refreshingCode = s.refreshingCode := by
  cases r with
  | rejected m => simp [handleClickResolve, handleClickTry]
  | response resp =>
    cases hb : resp.body with
    | rejected m =>
      by_cases hok : resp.ok = true <;> simp [handleClickResolve, handleClickTry, hok, hb]
    | null m =>
      by_cases hok : resp.ok = true <;> simp [handleClickResolve, handleClickTry, hok, hb]
    | parsed result =>
      by_cases hok : resp.ok = true <;> by_cases ht : truthyStr result.totpCode = true <;>
        simp [handleClickResolve, handleClickTry, hok, hb, ht]

theorem handleClickResolve_seconds (s : State) (r : FetchResult LaunchBody) :
    (handleClickResolve s r).secondsRemaining
      = match (Event.launchResolved r).writtenSeconds with
        | some v => v.stored
        | none => s.secondsRemaining := by
  cases r with
  | rejected m => simp [handleClickResolve, handleClickTry, Event.writtenSeconds]
  | response resp =>
    cases hb : resp.body with
    | rejected m =>
      by_cases hok : resp.ok = true <;>
        simp [handleClickResolve, handleClickTry, Event.writtenSeconds, hok, hb]
    | null m =>
      by_cases hok : resp.ok = true <;>
        simp [handleClickResolve, handleClickTry, Event.writtenSeconds, hok, hb]
    | parsed result =>
      by_cases hok : resp.ok = true <;> by_cases ht : truthyStr result.totpCode = true <;>
        simp [handleClickResolve, handleClickTry, Event.writtenSeconds, hok, hb, ht]

theorem refreshTotpCodeResolve_seconds (s : State) (r : FetchResult RefreshBody) :
    (refreshTotpCodeResolve s r).secondsRemaining
      = match (Event.refreshResolved r).writtenSeconds with
        | some v => v.stored
        | none => s.secondsRemaining := by
  cases r with
  | rejected m => simp [refreshTotpCodeResolve, refreshTotpCodeTry, Event.writtenSeconds]
  | response resp =>
    cases hb : resp.body with
    | rejected m =>
      by_cases hok : resp.ok = true <;>
        simp [refreshTotpCodeResolve, refreshTotpCodeTry, Event.writtenSeconds, hok, hb]
    | null m =>
      by_cases hok : resp.ok = true <;>
        simp [refreshTotpCodeResolve, refreshTotpCodeTry, Event.writtenSeconds, hok, hb]
    | parsed data =>
      by_cases hok : resp.ok = true <;>
        simp [refreshTotpCodeResolve, refreshTotpCodeTry, Event.writtenSeconds, hok, hb]

/-! ## Clicks and runs -/

theorem clickLaunch_fields (s : State) :
    (clickLaunch s).1.totpCode = s.totpCode ∧ (clickLaunch s).1.totpExpiry = s.totpExpiry ∧
    (clickLaunch s).1.secondsRemaining = s.secondsRemaining ∧
    (clickLaunch s).1.responseData = s.responseData ∧
    (clickLaunch s).1.refreshingCode = s.refreshingCode := by
  unfold clickLaunch
  split_ifs <;> simp [handleClickStart]

theorem clickRefresh_cases (s : State) :
    (clickRefresh s).1 = s ∨ (clickRefresh s).1 = { s with refreshingCode := true } := by
  unfold clickRefresh
  cases (render s).response with
  | none => exact Or.inl rfl
  | some panel =>
    by_cases hd : panel.refreshButton.disabled = true
    · simp [hd]
    · cases hrd : s.responseData with
      | none => simp [hd, refreshTotpCodeStart, hrd]
      | some d =>
        by_cases hu : truthyStr d.username = true
        · simp [hd, refreshTotpCodeStart, hrd, hu]
        · simp [hd, refreshTotpCodeStart, hrd, hu]

theorem clickRefresh_fields (s : State) :
    (clickRefresh s).1.totpCode = s.totpCode ∧ (clickRefresh s).1.totpExpiry = s.totpExpiry ∧
    (clickRefresh s).1.secondsRemaining = s.secondsRemaining ∧
    (clickRefresh s).1.responseData = s.responseData ∧
    (clickRefresh s).1.loading = s.loading := by
  rcases clickRefresh_cases s with h | h <;> rw [h] <;> simp

theorem clickRefresh_in_flight (s : State) (hr : s.refreshingCode = true) :
    clickRefresh s = (s, []) := by
  unfold clickRefresh
  cases hd : s.responseData with
  | none => simp [render, hd]
  | some d => simp [render, hd, refreshButton, hr]

theorem step_in_flight (s : State) (e : Event) (hr : s.refreshingCode = true)
    (he : e.isRefreshResolved = false) :
    (step s e).1.refreshingCode = true ∧ (step s e).2.filter Request.isRefresh = [] := by
  cases e with
  | clickLaunch =>
    by_cases hl : s.loading = true
    · simp [step, clickLaunch, render, launchButton, hl, hr]
    · simp [step, clickLaunch, render, launchButton, hl, hr, handleClickStart,
        Request.isRefresh]
  | launchResolved r => simp [step, handleClickResolve_refreshing, hr]
  | clickRefresh => simp [step, clickRefresh_in_flight s hr, hr]
  | refreshResolved r => simp [Event.isRefreshResolved] at he
  | tick => simp [step, (tick_fields s).2.2.2.2.2, hr]

theorem run_in_flight (mid : List Event) (s : State) (hr : s.refreshingCode = true)
    (hmid : ∀ e ∈ mid, e.isRefreshResolved = false) :
    (run s mid).1.refreshingCode = true ∧ (run s mid).2.filter Request.isRefresh = [] := by
  induction mid generalizing s with
  | nil => simp [run, hr]
  | cons e es ih =>
    obtain ⟨h1, h2⟩ := step_in_flight s e hr (hmid e (List.mem_cons_self e es))
    obtain ⟨h3, h4⟩ := ih (step s e).1 h1 (fun x hx => hmid x (List.mem_cons_of_mem e hx))
    simp [run, h2, h3, h4]

theorem run_append (a b : List Event) (s : State) :
    run s (a ++ b) = ((run (run s a).1 b).1, (run s a).2 ++ (run (run s a).1 b).2) := by
  induction a generalizing s with
  | nil => simp [run]
  | cons e es ih => simp [run, ih, List.append_assoc]

theorem run_replicate_tick (k : Nat) (s : State) :
    (run s (List.replicate k Event.tick)).1 = ticks k s := by
  induction k generalizing s with
  | zero => simp [run, ticks]
  | succ k ih => simp [List.replicate_succ, run, step, ticks, ih]

/-- A handler is started, the timer fires `k` times while the fetch is pending, the fetch
settles. -/
theorem run_settle (s : State) (e1 e2 : Event) (k : Nat) :
    (run s (e1 :: (List.replicate k Event.tick ++ [e2]))).1
      = (step (ticks k (step s e1).1) e2).1 := by
  simp [run, run_append, run_replicate_tick]

end LabLaunch

namespace LabLaunch

/-! ## Properties -/

/-- C1: for every prior state with a known username and every 2xx refresh response whose
JSON body carries code `c`, expiryTime `e` and secondsRemaining `n`, the state after
`refreshTotpCode` has `totpCode = c`, `totpExpiry = new Date(e)`, `secondsRemaining = n`
and `refreshingCode = false`; one request is sent.  The same holds for the continuation run
on any state `mid` reached while the fetch was pending, so nothing of the prior code,
expiry or countdown is merged in. -/
theorem refresh_success_replaces_otp (s : State) (d : LaunchBody)
    (server : Request → FetchResult RefreshBody) (resp : HttpResponse RefreshBody)
    (data : RefreshBody) (c e : String) (n : JsInt)
    (hs : s.responseData = some d) (hu : truthyStr d.username = true)
    (hserver : server (Request.refresh refreshUrl d.username) = FetchResult.response resp)
    (hok : resp.ok = true) (hbody : resp.body = JsonResult.parsed data)
    (hc : data.code = some c) (he : data.expiryTime = some e)
    (hn : data.secondsRemaining = JsNumber.int n) :
    ((refreshTotpCode s server).1.totpCode = some c ∧
      (refreshTotpCode s server).1.totpExpiry = some (JsDate.mk (some e)) ∧
      (refreshTotpCode s server).1.secondsRemaining = JsNumber.int n.val ∧
      (refreshTotpCode s server).1.refreshingCode = false ∧
      (refreshTotpCode s server).2 = [Request.refresh refreshUrl d.username]) ∧
    ∀ mid : State,
      (refreshTotpCodeResolve mid (FetchResult.response resp)).totpCode = some c ∧
      (refreshTotpCodeResolve mid (FetchResult.response resp)).totpExpiry
        = some (JsDate.mk (some e)) ∧
      (refreshTotpCodeResolve mid (FetchResult.response resp)).secondsRemaining
        = JsNumber.int n.val ∧
      (refreshTotpCodeResolve mid (FetchResult.response resp)).refreshingCode = false := by
  have hmid : ∀ mid : State,
      (refreshTotpCodeResolve mid (FetchResult.response resp)).totpCode = some c ∧
      (refreshTotpCodeResolve mid (FetchResult.response resp)).totpExpiry
        = some (JsDate.mk (some e)) ∧
      (refreshTotpCodeResolve mid (FetchResult.response resp)).secondsRemaining
        = JsNumber.int n.val ∧
      (refreshTotpCodeResolve mid (FetchResult.response resp)).refreshingCode = false := by
    intro mid
    rw [refreshTotpCodeResolve_ok mid resp data hok hbody]
    simp [hc, he, hn, JsNumber.stored]
  refine ⟨?_, hmid⟩
  have hstart : refreshTotpCodeStart s
      = some ({ s with refreshingCode := true }, Request.refresh refreshUrl d.username) := by
    simp [refreshTotpCodeStart, hs, hu]
  have hcall : refreshTotpCode s server
      = (refreshTotpCodeResolve { s with refreshingCode := true } (FetchResult.response resp),
          [Request.refresh refreshUrl d.username]) := by
    simp [refreshTotpCode, hstart, hserver]
  rw [hcall]
  obtain ⟨h1, h2, h3, h4⟩ := hmid { s with refreshingCode := true }
  exact ⟨h1, h2, h3, h4, rfl⟩

/-- Witness of C1: the widget holds "123456" with 17 seconds left; the refresh answers 200
with code "654321" and 30 seconds. -/
theorem refresh_success_replaces_otp_witness :
    (refreshTotpCode sampleHolding (fun _ => freshCode)).1.totpCode = some "654321" ∧
    (refreshTotpCode sampleHolding (fun _ => freshCode)).1.secondsRemaining
      = JsNumber.int 30 :=
  ⟨(refresh_success_replaces_otp sampleHolding sampleCredentials (fun _ => freshCode)
      ⟨200, JsonResult.parsed sampleFresh⟩ sampleFresh "654321" "2025-01-01T00:01:00Z"
      ⟨30, by decide⟩ rfl (by decide) rfl (by decide) rfl rfl rfl rfl).1.1,
   (refresh_success_replaces_otp sampleHolding sampleCredentials (fun _ => freshCode)
      ⟨200, JsonResult.parsed sampleFresh⟩ sampleFresh "654321" "2025-01-01T00:01:00Z"
      ⟨30, by decide⟩ rfl (by decide) rfl (by decide) rfl rfl rfl rfl).1.2.2.1⟩

/-- C2 as stated fails: `prev - 1` is double arithmetic.  At `prev = 2 ^ 54`, a value a
double holds, the difference rounds back to `2 ^ 54`, so the updater returns `prev` and not
`prev - 1` and the countdown does not move; at `2 ^ 53 + 2` it drops by 2. -/
theorem countdown_stuck_counterexample :
    isDouble 18014398509481984 = true ∧
    countdownUpdater 18014398509481984 = 18014398509481984 ∧
    ¬ (countdownUpdater 18014398509481984 = max (18014398509481984 - 1) 0) ∧
    (tick { sampleHolding with
            secondsRemaining := JsNumber.int 18014398509481984 }).secondsRemaining
      = JsNumber.int 18014398509481984 ∧
    countdownUpdater 9007199254740994 = 9007199254740992 := by
  decide

/-- C2, amended: for every integer `prev <= 2 ^ 53 = 9007199254740992` the countdown updater
yields `max (prev - 1) 0`, it decrements by exactly one when `1 <= prev`, and a timer tick
on a state whose `secondsRemaining` is `prev` leaves `max (prev - 1) 0` there; for every
integer, of any size, its result is never below `0`. -/
theorem countdown_tick_floor (prev : Int) (hb : prev ≤ 9007199254740992) :
    countdownUpdater prev = max (prev - 1) 0 ∧
    (1 ≤ prev → countdownUpdater prev = prev - 1) ∧
    (∀ s : State, s.secondsRemaining = JsNumber.int prev →
      (tick s).secondsRemaining = JsNumber.int (max (prev - 1) 0)) ∧
    ∀ p : Int, 0 ≤ countdownUpdater p := by
  refine ⟨countdownUpdater_exact prev hb, ?_, fun s h => tick_seconds_exact s prev h hb,
    countdownUpdater_nonneg⟩
  intro h
  rw [countdownUpdater_exact prev hb]
  exact max_eq_left (by omega)

/-- Witness of C2 (amended): from 5 the updater gives 4, and a tick on a state at 5 leaves
4. -/
theorem countdown_tick_floor_witness :
    countdownUpdater 5 = 5 - 1 ∧
    (tick { initialState with secondsRemaining := JsNumber.int 5 }).secondsRemaining
      = JsNumber.int (max (5 - 1) 0) :=
  ⟨(countdown_tick_floor 5 (by decide)).2.1 (by decide),
   (countdown_tick_floor 5 (by decide)).2.2.1
     { initialState with secondsRemaining := JsNumber.int 5 } rfl⟩

/-- C3: when no identity is known (`responseData` is null, or its username is absent or
empty), `refreshTotpCode` returns before the fetch: no request is sent and the state, all
seven fields, is the one it started from.  A click on the refresh button does the same. -/
theorem refresh_without_identity_noop (s : State)
    (h : s.responseData = none ∨
      ∃ d, s.responseData = some d ∧ truthyStr d.username = false) :
    refreshTotpCodeStart s = none ∧
    (∀ server : Request → FetchResult RefreshBody, refreshTotpCode s server = (s, [])) ∧
    clickRefresh s = (s, []) := by
  have hstart : refreshTotpCodeStart s = none := by
    rcases h with h | ⟨d, hd, hu⟩
    · simp [refreshTotpCodeStart, h]
    · simp [refreshTotpCodeStart, hd, hu]
  refine ⟨hstart, ?_, ?_⟩
  · intro server
    simp [refreshTotpCode, hstart]
  · unfold clickRefresh
    cases hp : (render s).response with
    | none => rfl
    | some panel =>
      by_cases hdis : panel.refreshButton.disabled = true
      · simp [hdis]
      · simp [hdis, hstart]

/-- Witness of C3: the initial state (no launch yet), and a state whose launch result has no
username. -/
theorem refresh_without_identity_noop_witness :
    (∀ server : Request → FetchResult RefreshBody,
      refreshTotpCode initialState server = (initialState, [])) ∧
    clickRefresh { initialState with responseData := some quotaExceeded }
      = ({ initialState with responseData := some quotaExceeded }, []) :=
  ⟨(refresh_without_identity_noop initialState (Or.inl rfl)).2.1,
   (refresh_without_identity_noop
      { initialState with responseData := some quotaExceeded }
      (Or.inr ⟨quotaExceeded, rfl, rfl⟩)).2.2⟩

/-- C4 as stated fails: the widget holds "123456" with 17 seconds left, the refresh answers
500 with an error message; afterwards the code, its expiry and the countdown are still held,
so the OTP state is not `Empty`. -/
theorem refresh_failure_not_empty_counterexample :
    refreshDown.failed = true ∧
    (refreshTotpCode sampleHolding (fun _ => refreshDown)).1
      = { sampleHolding with error := some "totp backend down" } ∧
    isEmptyOtp (refreshTotpCode sampleHolding (fun _ => refreshDown)).1 = false := by
  decide

/-- C4, amended: for every state `s` with a known username, `refreshTotpCode` sends the
request and, when the refresh fails (transport error or non-2xx response), its continuation
changes none of `totpCode`, `totpExpiry`, `secondsRemaining` and `responseData`: with `mid`
the state in which the failure arrives, the state afterwards has these four as in `mid`,
`refreshingCode = false`, and the error message reported (the transport error's message;
the message thrown by `response.json()` or by reading a JSON `null`; the body's non-empty
`error`; else "Failed to refresh verification code").  So the OTP state is `Empty`
afterwards exactly when `mid` holds no code, no expiry and a countdown of 0.  When the
timer fired `k` times while the fetch was pending, the code and expiry are those of `s` and
the countdown is the one `k` ticks after `s`. -/
theorem refresh_failure_keeps_otp (s : State) (d : LaunchBody) (r : FetchResult RefreshBody)
    (hs : s.responseData = some d) (hu : truthyStr d.username = true)
    (hfail : r.failed = true) :
    refreshTotpCodeStart s
      = some ({ s with refreshingCode := true }, Request.refresh refreshUrl d.username) ∧
    (∀ mid : State,
      (refreshTotpCodeResolve mid r).totpCode = mid.totpCode ∧
      (refreshTotpCodeResolve mid r).totpExpiry = mid.totpExpiry ∧
      (refreshTotpCodeResolve mid r).secondsRemaining = mid.secondsRemaining ∧
      (refreshTotpCodeResolve mid r).responseData = mid.responseData ∧
      (refreshTotpCodeResolve mid r).refreshingCode = false ∧
      (isEmptyOtp (refreshTotpCodeResolve mid r) = true ↔
        mid.totpCode = none ∧ mid.totpExpiry = none ∧
          mid.secondsRemaining = JsNumber.int 0) ∧
      (∀ m, r = FetchResult.rejected m → (refreshTotpCodeResolve mid r).error = some m) ∧
      (∀ resp m, r = FetchResult.response resp →
        (resp.body = JsonResult.rejected m ∨ resp.body = JsonResult.null m) →
        (refreshTotpCodeResolve mid r).error = some m) ∧
      (∀ resp errorData m, r = FetchResult.response resp →
        resp.body = JsonResult.parsed errorData → errorData.error = some m → m ≠ "" →
        (refreshTotpCodeResolve mid r).error = some m) ∧
      (∀ resp errorData, r = FetchResult.response resp →
        resp.body = JsonResult.parsed errorData →
        (errorData.error = none ∨ errorData.error = some "") →
        (refreshTotpCodeResolve mid r).error
          = some "Failed to refresh verification code")) ∧
    (∀ k : Nat,
      (run s (Event.clickRefresh ::
        (List.replicate k Event.tick ++ [Event.refreshResolved r]))).1.totpCode
        = s.totpCode ∧
      (run s (Event.clickRefresh ::
        (List.replicate k Event.tick ++ [Event.refreshResolved r]))).1.totpExpiry
        = s.totpExpiry ∧
      (run s (Event.clickRefresh ::
        (List.replicate k Event.tick ++ [Event.refreshResolved r]))).1.secondsRemaining
        = (ticks k s).secondsRemaining ∧
      (run s (Event.clickRefresh ::
        (List.replicate k Event.tick ++ [Event.refreshResolved r]))).1.refreshingCode
        = false) := by
  have hmid : ∀ mid : State,
      (refreshTotpCodeResolve mid r).totpCode = mid.totpCode ∧
      (refreshTotpCodeResolve mid r).totpExpiry = mid.totpExpiry ∧
      (refreshTotpCodeResolve mid r).secondsRemaining = mid.secondsRemaining ∧
      (refreshTotpCodeResolve mid r).responseData = mid.responseData ∧
      (refreshTotpCodeResolve mid r).refreshingCode = false :=
    fun mid =>
      let h := refreshTotpCodeResolve_failed mid r hfail
      ⟨h.1, h.2.1, h.2.2.1, h.2.2.2.1, h.2.2.2.2.2⟩
  refine ⟨by simp [refreshTotpCodeStart, hs, hu], ?_, ?_⟩
  · intro mid
    obtain ⟨h1, h2, h3, h4, h6⟩ := hmid mid
    obtain ⟨e1, e2, e3, e4⟩ := refreshTotpCodeResolve_failed_error mid r hfail
    refine ⟨h1, h2, h3, h4, h6, ?_, e1, e2, e3, e4⟩
    simp only [isEmptyOtp, h1, h2, h3, h6]
    simp [Option.isNone_iff_eq_none, and_assoc]
  · intro k
    rw [run_settle]
    obtain ⟨h1, h2, h3, _, h6⟩ := hmid (ticks k (step s Event.clickRefresh).1)
    obtain ⟨_, _, _, t4, t5, _⟩ := ticks_fields k (step s Event.clickRefresh).1
    obtain ⟨c1, c2, c3, _, _⟩ := clickRefresh_fields s
    refine ⟨?_, ?_, ?_, ?_⟩
    · exact h1.trans (t4.trans c1)
    · exact h2.trans (t5.trans c2)
    · exact h3.trans (ticks_seconds_congr k _ _ c3)
    · exact h6

/-- Witness of C4 (amended): the holding widget, three ticks while the refresh is pending,
then a 500 answer with an error message: the code stays, the countdown reads 14, the error
is the server's. -/
theorem refresh_failure_keeps_otp_witness :
    (run sampleHolding
      [Event.clickRefresh, Event.tick, Event.tick, Event.tick,
       Event.refreshResolved refreshDown]).1.totpCode = some "123456" ∧
    (run sampleHolding
      [Event.clickRefresh, Event.tick, Event.tick, Event.tick,
       Event.refreshResolved refreshDown]).1.secondsRemaining = JsNumber.int 14 ∧
    (refreshTotpCodeResolve (ticks 3 sampleHolding) refreshDown).error
      = some "totp backend down" :=
  ⟨((refresh_failure_keeps_otp sampleHolding sampleCredentials refreshDown
      rfl (by decide) (by decide)).2.2 3).1,
   ((refresh_failure_keeps_otp sampleHolding sampleCredentials refreshDown
      rfl (by decide) (by decide)).2.2 3).2.2.1.trans (by decide),
   ((refresh_failure_keeps_otp sampleHolding sampleCredentials refreshDown
      rfl (by decide) (by decide)).2.1 (ticks 3 sampleHolding)).2.2.2.2.2.2.2.2.1
      ⟨500, JsonResult.parsed backendDown⟩ backendDown "totp backend down" rfl rfl rfl
      (by decide)⟩

/-- Remark: the guard against overlapping refreshes is the button's `disabled` attribute;
`refreshTotpCode` itself does not read `refreshingCode`, so its synchronous part would send
a request in any state with a known username. -/
theorem refreshTotpCodeStart_ignores_flag (s : State) (d : LaunchBody)
    (hs : s.responseData = some d) (hu : truthyStr d.username = true) :
    refreshTotpCodeStart s
      = some ({ s with refreshingCode := true }, Request.refresh refreshUrl d.username) := by
  simp [refreshTotpCodeStart, hs, hu]

/-- C5: in every state in which a refresh is in flight (`refreshingCode = true`), invoking
the refresh operation again, which the widget offers as the refresh button with
`disabled={refreshingCode}`, sends no request and changes no state.  Hence from a state with
a known username and no refresh in flight, two refresh clicks with the first fetch still
pending in between (any events `mid` other than the settling of that fetch) send exactly one
request to the refresh endpoint. -/
theorem refresh_click_ignored_while_in_flight (s : State) (hr : s.refreshingCode = true) :
    clickRefresh s = (s, []) ∧
    ∀ (s0 : State) (d : LaunchBody) (mid : List Event),
      s0.responseData = some d → truthyStr d.username = true → s0.refreshingCode = false →
      (∀ e ∈ mid, e.isRefreshResolved = false) →
      (run s0 (Event.clickRefresh :: (mid ++ [Event.clickRefresh]))).2.filter Request.isRefresh
        = [Request.refresh refreshUrl d.username] := by
  refine ⟨clickRefresh_in_flight s hr, ?_⟩
  intro s0 d mid hs hu hr0 hmid
  have hfirst : clickRefresh s0
      = ({ s0 with refreshingCode := true }, [Request.refresh refreshUrl d.username]) := by
    simp [clickRefresh, render, hs, refreshButton, hr0, refreshTotpCodeStart, hu]
  obtain ⟨h1, h2⟩ := run_in_flight mid { s0 with refreshingCode := true } rfl hmid
  have hsecond := clickRefresh_in_flight _ h1
  simp only [run, step, hfirst, run_append, hsecond]
  simp [h2, Request.isRefresh]

/-- Witness of C5: the holding widget with a refresh in flight ignores a click; two clicks
with a timer tick in between send one request. -/
theorem refresh_click_ignored_while_in_flight_witness :
    clickRefresh { sampleHolding with refreshingCode := true }
      = ({ sampleHolding with refreshingCode := true }, []) ∧
    (run sampleHolding
        (Event.clickRefresh :: ([Event.tick] ++ [Event.clickRefresh]))).2.filter
        Request.isRefresh
      = [Request.refresh refreshUrl sampleCredentials.username] :=
  ⟨(refresh_click_ignored_while_in_flight
      { sampleHolding with refreshingCode := true } rfl).1,
   (refresh_click_ignored_while_in_flight
      { sampleHolding with refreshingCode := true } rfl).2
      sampleHolding sampleCredentials [Event.tick] rfl (by decide) rfl (by decide)⟩

end LabLaunch

namespace LabLaunch

theorem isEmptyOtp_congr (s t : State) (h1 : t.totpCode = s.totpCode)
    (h2 : t.totpExpiry = s.totpExpiry) (h3 : t.secondsRemaining = s.secondsRemaining)
    (h4 : t.refreshingCode = s.refreshingCode) : isEmptyOtp t = isEmptyOtp s := by
  simp only [isEmptyOtp, h1, h2, h3, h4]

theorem settle_state_launch (s : State) (k : Nat) :
    (ticks k (step s Event.clickLaunch).1).totpCode = s.totpCode ∧
    (ticks k (step s Event.clickLaunch).1).totpExpiry = s.totpExpiry ∧
    (ticks k (step s Event.clickLaunch).1).secondsRemaining = (ticks k s).secondsRemaining ∧
    (ticks k (step s Event.clickLaunch).1).responseData = s.responseData ∧
    (isEmptyOtp s = true → isEmptyOtp (ticks k (step s Event.clickLaunch).1) = true) := by
  obtain ⟨t1, _, _, t4, t5, _⟩ := ticks_fields k (step s Event.clickLaunch).1
  obtain ⟨c1, c2, c3, c4, c5⟩ := clickLaunch_fields s
  refine ⟨t4.trans c1, t5.trans c2, ticks_seconds_congr k _ _ c3, t1.trans c4, ?_⟩
  intro hempty
  apply ticks_empty
  have hcongr := isEmptyOtp_congr s (step s Event.clickLaunch).1 c1 c2 c3 c5
  rw [hcongr]
  exact hempty

/-- C6 as stated fails: a launch answered 200 with `totpCode:"123456"` and
`totpSecondsRemaining` `2 ^ 54` (a value a double holds, `n >= 0`) stores `2 ^ 54`, and the
countdown does not move: after 1 tick and after 5 ticks `secondsRemaining` is still
`2 ^ 54`, not `max (n - k) 0`, because `prev - 1` rounds back to `prev`. -/
theorem launch_huge_seconds_counterexample :
    (handleClick initialState (fun _ => hugeSeconds)).1.totpCode = some "123456" ∧
    (handleClick initialState (fun _ => hugeSeconds)).1.secondsRemaining
      = JsNumber.int 18014398509481984 ∧
    (ticks 1 (handleClick initialState (fun _ => hugeSeconds)).1).secondsRemaining
      = JsNumber.int 18014398509481984 ∧
    (ticks 5 (handleClick initialState (fun _ => hugeSeconds)).1).secondsRemaining
      = JsNumber.int 18014398509481984 ∧
    ¬ ((ticks 1 (handleClick initialState (fun _ => hugeSeconds)).1).secondsRemaining
      = JsNumber.int (max (18014398509481984 - 1) 0)) := by
  decide

/-- C6, amended: for every successful launch whose response carries a non-empty `totpCode`
`c` and `totpSecondsRemaining` `n` with `0 <= n <= 2 ^ 53 = 9007199254740992`, the state
after `handleClick` has `totpCode = c` and `secondsRemaining = n` (also when the
continuation runs on any state `mid` reached while the fetch was pending); after `k` further
timer ticks `secondsRemaining = max (n - k) 0`; after `n` ticks it is `0` and the display
shows "Code expired - please refresh". -/
theorem launch_success_countdown (s : State) (server : Request → FetchResult LaunchBody)
    (resp : HttpResponse LaunchBody) (result : LaunchBody) (c : String) (n : JsInt)
    (hserver : server (handleClickStart s).2 = FetchResult.response resp)
    (hok : resp.ok = true) (hbody : resp.body = JsonResult.parsed result)
    (hc : result.totpCode = some c) (hne : c ≠ "")
    (hn : result.totpSecondsRemaining = JsNumber.int n) (h0 : 0 ≤ n.val)
    (hb : n.val ≤ 9007199254740992) :
    ((handleClick s server).1.totpCode = some c ∧
      (handleClick s server).1.secondsRemaining = JsNumber.int n.val ∧
      (∀ k : Nat, (ticks k (handleClick s server).1).secondsRemaining
        = JsNumber.int (max (n.val - (k : Int)) 0)) ∧
      (ticks n.val.toNat (handleClick s server).1).secondsRemaining = JsNumber.int 0 ∧
      otpDisplay (ticks n.val.toNat (handleClick s server).1)
        = OtpDisplay.codeDisplay c "#ff4d4d" TimerText.expired) ∧
    ∀ mid : State,
      (handleClickResolve mid (FetchResult.response resp)).totpCode = some c ∧
      (handleClickResolve mid (FetchResult.response resp)).secondsRemaining
        = JsNumber.int n.val ∧
      (∀ k : Nat,
        (ticks k (handleClickResolve mid (FetchResult.response resp))).secondsRemaining
          = JsNumber.int (max (n.val - (k : Int)) 0)) ∧
      (ticks n.val.toNat
        (handleClickResolve mid (FetchResult.response resp))).secondsRemaining
        = JsNumber.int 0 ∧
      otpDisplay (ticks n.val.toNat (handleClickResolve mid (FetchResult.response resp)))
        = OtpDisplay.codeDisplay c "#ff4d4d" TimerText.expired ∧
      (render (ticks n.val.toNat
        (handleClickResolve mid (FetchResult.response resp)))).response.map ResponsePanel.mfa
        = some (OtpDisplay.codeDisplay c "#ff4d4d" TimerText.expired) := by
  have htruthy : truthyStr result.totpCode = true := by simp [hc, truthyStr, hne]
  have hmid : ∀ mid : State,
      (handleClickResolve mid (FetchResult.response resp)).totpCode = some c ∧
      (handleClickResolve mid (FetchResult.response resp)).secondsRemaining
        = JsNumber.int n.val ∧
      (∀ k : Nat,
        (ticks k (handleClickResolve mid (FetchResult.response resp))).secondsRemaining
          = JsNumber.int (max (n.val - (k : Int)) 0)) ∧
      (ticks n.val.toNat
        (handleClickResolve mid (FetchResult.response resp))).secondsRemaining
        = JsNumber.int 0 ∧
      otpDisplay (ticks n.val.toNat (handleClickResolve mid (FetchResult.response resp)))
        = OtpDisplay.codeDisplay c "#ff4d4d" TimerText.expired ∧
      (render (ticks n.val.toNat
        (handleClickResolve mid (FetchResult.response resp)))).response.map ResponsePanel.mfa
        = some (OtpDisplay.codeDisplay c "#ff4d4d" TimerText.expired) := by
    intro mid
    have hcode : (handleClickResolve mid (FetchResult.response resp)).totpCode = some c := by
      rw [handleClickResolve_ok_code mid resp result hok hbody htruthy]
      exact hc
    have hsec : (handleClickResolve mid (FetchResult.response resp)).secondsRemaining
        = JsNumber.int n.val := by
      rw [handleClickResolve_ok_code mid resp result hok hbody htruthy]
      simp [hn, JsNumber.stored]
    have hdata : (handleClickResolve mid (FetchResult.response resp)).responseData
        = some result := by
      rw [handleClickResolve_ok_code mid resp result hok hbody htruthy]
    have hzero : (ticks n.val.toNat
        (handleClickResolve mid (FetchResult.response resp))).secondsRemaining
        = JsNumber.int 0 := by
      rw [ticks_seconds n.val.toNat _ n.val h0 hb hsec, Int.toNat_of_nonneg h0]
      simp
    have hcode2 : (ticks n.val.toNat
        (handleClickResolve mid (FetchResult.response resp))).totpCode = some c := by
      rw [(ticks_fields n.val.toNat _).2.2.2.1, hcode]
    have hdata2 : (ticks n.val.toNat
        (handleClickResolve mid (FetchResult.response resp))).responseData
        = some result := by
      rw [(ticks_fields n.val.toNat _).1, hdata]
    have hdisp : otpDisplay
        (ticks n.val.toNat (handleClickResolve mid (FetchResult.response resp)))
        = OtpDisplay.codeDisplay c "#ff4d4d" TimerText.expired := by
      simp [otpDisplay, hcode2, hzero, hne, jsLtTen, timerText]
    refine ⟨hcode, hsec, fun k => ticks_seconds k _ n.val h0 hb hsec, hzero, hdisp, ?_⟩
    simp [render, hdata2, hdisp]
  refine ⟨?_, hmid⟩
  have hcall : (handleClick s server).1
      = handleClickResolve (handleClickStart s).1 (FetchResult.response resp) := by
    simp [handleClick, hserver]
  rw [hcall]
  obtain ⟨h1, h2, h3, h4, h5, _⟩ := hmid (handleClickStart s).1
  exact ⟨h1, h2, h3, h4, h5⟩

/-- Witness of C6 (scenario A): code "123456" with 30 seconds; after 30 ticks the countdown
is 0 and the timer text is the expired message. -/
theorem launch_success_countdown_witness :
    (handleClick initialState (fun _ => scenarioA)).1.secondsRemaining = JsNumber.int 30 ∧
    (ticks 30 (handleClick initialState (fun _ => scenarioA)).1).secondsRemaining
      = JsNumber.int 0 ∧
    otpDisplay (ticks 30 (handleClick initialState (fun _ => scenarioA)).1)
      = OtpDisplay.codeDisplay "123456" "#ff4d4d" TimerText.expired ∧
    TimerText.expired.text toString = "Code expired - please refresh" :=
  ⟨(launch_success_countdown initialState (fun _ => scenarioA)
      ⟨200, JsonResult.parsed (sampleOtp ⟨30, by decide⟩)⟩ (sampleOtp ⟨30, by decide⟩)
      "123456" ⟨30, by decide⟩ rfl (by decide) rfl rfl (by decide) rfl (by decide)
      (by decide)).1.2.1,
   (launch_success_countdown initialState (fun _ => scenarioA)
      ⟨200, JsonResult.parsed (sampleOtp ⟨30, by decide⟩)⟩ (sampleOtp ⟨30, by decide⟩)
      "123456" ⟨30, by decide⟩ rfl (by decide) rfl rfl (by decide) rfl (by decide)
      (by decide)).1.2.2.2.1,
   (launch_success_countdown initialState (fun _ => scenarioA)
      ⟨200, JsonResult.parsed (sampleOtp ⟨30, by decide⟩)⟩ (sampleOtp ⟨30, by decide⟩)
      "123456" ⟨30, by decide⟩ rfl (by decide) rfl rfl (by decide) rfl (by decide)
      (by decide)).1.2.2.2.2,
   rfl⟩

/-- C7 as stated fails: a launch answered 500 with a body that is not JSON (an HTML error
page) carries no server-provided message, yet the error is not "Request failed: 500":
`response.json()` throws and the message of that exception is shown. -/
theorem launch_failure_unparsable_counterexample :
    htmlError.failed = true ∧
    (handleClick initialState (fun _ => htmlError)).1.error
      = some "Unexpected token < in JSON at position 0" ∧
    ¬ ((handleClick initialState (fun _ => htmlError)).1.error
      = some ("Request failed: " ++ toString 500)) := by
  decide

/-- Remark: for every non-2xx launch response whose body is not a JSON object,
`response.json()` or the read of `errorData.error` throws, and the error shown is the
message of that exception. -/
theorem launch_failure_unparsable_body (mid : State) (resp : HttpResponse LaunchBody)
    (m : String) (hok : resp.ok = false)
    (hbody : resp.body = JsonResult.rejected m ∨ resp.body = JsonResult.null m) :
    (handleClickResolve mid (FetchResult.response resp)).error = some m := by
  rcases hbody with hb | hb <;> simp [handleClickResolve, handleClickTry, hok, hb]

/-- C7, amended: for every launch that receives a non-2xx response with status `s` whose
body is a JSON object, the error after `handleClick` is the body's `error` message when it
has a non-empty one, and otherwise "Request failed: s"; `loading` is false afterwards, and
the continuation changes none of `totpCode`, `totpExpiry`, `secondsRemaining`,
`responseData` and `refreshingCode` (they are as in the state `mid` in which the response
arrives).  When the timer fired `k` times while the fetch was pending, the code, expiry and
`responseData` are those of the state `s0` before the call and the countdown is the one `k`
ticks after `s0`; so a launch failing from a state whose OTP state is `Empty` (the initial
state) leaves it `Empty`. -/
theorem launch_failure_reports_error (s0 : State) (resp : HttpResponse LaunchBody)
    (errorData : LaunchBody) (hok : resp.ok = false)
    (hbody : resp.body = JsonResult.parsed errorData) :
    (∀ mid : State,
      (∀ m, errorData.error = some m → m ≠ "" →
        (handleClickResolve mid (FetchResult.response resp)).error = some m) ∧
      ((errorData.error = none ∨ errorData.error = some "") →
        (handleClickResolve mid (FetchResult.response resp)).error
          = some ("Request failed: " ++ toString resp.status)) ∧
      (handleClickResolve mid (FetchResult.response resp)).loading = false ∧
      (handleClickResolve mid (FetchResult.response resp)).totpCode = mid.totpCode ∧
      (handleClickResolve mid (FetchResult.response resp)).totpExpiry = mid.totpExpiry ∧
      (handleClickResolve mid (FetchResult.response resp)).secondsRemaining
        = mid.secondsRemaining ∧
      (handleClickResolve mid (FetchResult.response resp)).responseData
        = mid.responseData ∧
      (handleClickResolve mid (FetchResult.response resp)).refreshingCode
        = mid.refreshingCode) ∧
    (∀ k : Nat,
      (run s0 (Event.clickLaunch :: (List.replicate k Event.tick ++
        [Event.launchResolved (FetchResult.response resp)]))).1.totpCode = s0.totpCode ∧
      (run s0 (Event.clickLaunch :: (List.replicate k Event.tick ++
        [Event.launchResolved (FetchResult.response resp)]))).1.totpExpiry
        = s0.totpExpiry ∧
      (run s0 (Event.clickLaunch :: (List.replicate k Event.tick ++
        [Event.launchResolved (FetchResult.response resp)]))).1.secondsRemaining
        = (ticks k s0).secondsRemaining ∧
      (run s0 (Event.clickLaunch :: (List.replicate k Event.tick ++
        [Event.launchResolved (FetchResult.response resp)]))).1.responseData
        = s0.responseData ∧
      (run s0 (Event.clickLaunch :: (List.replicate k Event.tick ++
        [Event.launchResolved (FetchResult.response resp)]))).1.loading = false ∧
      (isEmptyOtp s0 = true →
        isEmptyOtp (run s0 (Event.clickLaunch :: (List.replicate k Event.tick ++
          [Event.launchResolved (FetchResult.response resp)]))).1 = true)) ∧
    (handleClick s0 (fun _ => FetchResult.response resp)).1
      = handleClickResolve (handleClickStart s0).1 (FetchResult.response resp) := by
  have hres := fun mid : State => handleClickResolve_fail_parsed mid resp errorData hok hbody
  refine ⟨?_, ?_, rfl⟩
  · intro mid
    refine ⟨?_, ?_, by rw [hres], by rw [hres], by rw [hres], by rw [hres], by rw [hres],
      by rw [hres]⟩
    · intro m he hne
      rw [hres]
      simp [he, jsOrStr, hne]
    · intro he
      rw [hres]
      rcases he with he | he <;> simp [he, jsOrStr]
  · intro k
    rw [run_settle]
    obtain ⟨g1, g2, g3, g4, g5⟩ := settle_state_launch s0 k
    have hfin : (step (ticks k (step s0 Event.clickLaunch).1)
        (Event.launchResolved (FetchResult.response resp))).1
        = handleClickResolve (ticks k (step s0 Event.clickLaunch).1)
            (FetchResult.response resp) := rfl
    rw [hfin, hres]
    refine ⟨g1, g2, g3, g4, rfl, ?_⟩
    intro hempty
    have h5 := g5 hempty
    simpa [isEmptyOtp] using h5

/-- Witness of C7 (scenario B): status 500 with body `{"error":"quota exceeded"}` from the
initial state gives the error "quota exceeded" and leaves the OTP state `Empty`; a 503 with
a JSON object without `error` gives "Request failed: 503". -/
theorem launch_failure_reports_error_witness :
    (handleClick initialState (fun _ => scenarioB)).1.error = some "quota exceeded" ∧
    isEmptyOtp (run initialState
      [Event.clickLaunch, Event.launchResolved scenarioB]).1 = true ∧
    (handleClickResolve (handleClickStart initialState).1
      (FetchResult.response ⟨503, JsonResult.parsed sampleCredentials⟩)).error
      = some "Request failed: 503" :=
  ⟨((launch_failure_reports_error initialState ⟨500, JsonResult.parsed quotaExceeded⟩
      quotaExceeded (by decide) rfl).1 (handleClickStart initialState).1).1
      "quota exceeded" rfl (by decide),
   ((launch_failure_reports_error initialState ⟨500, JsonResult.parsed quotaExceeded⟩
      quotaExceeded (by decide) rfl).2.1 0).2.2.2.2.2 (by decide),
   ((launch_failure_reports_error initialState ⟨503, JsonResult.parsed sampleCredentials⟩
      sampleCredentials (by decide) rfl).1 (handleClickStart initialState).1).2.1
      (Or.inl rfl)⟩

end LabLaunch

namespace LabLaunch

/-- C8 as stated fails: the widget holds "123456" and the countdown is at 0; the display has
the expired message as its timer text, and the code span still shows "123456". -/
theorem expired_display_shows_code_counterexample :
    sampleExpired.totpCode = some "123456" ∧
    sampleExpired.secondsRemaining = JsNumber.int 0 ∧
    otpDisplay sampleExpired
      = OtpDisplay.codeDisplay "123456" "#ff4d4d" TimerText.expired ∧
    (otpDisplay sampleExpired).shownCode = some "123456" ∧
    (render sampleExpired).response.map ResponsePanel.mfa
      = some (OtpDisplay.codeDisplay "123456" "#ff4d4d" TimerText.expired) ∧
    ¬ (∀ s : State, ∀ c : String, s.totpCode = some c → c ≠ "" →
        s.secondsRemaining = JsNumber.int 0 →
        (otpDisplay s).showsExpired = true ∧ (otpDisplay s).shownCode = none) := by
  refine ⟨rfl, rfl, by decide, by decide, by decide, ?_⟩
  intro h
  have h2 := (h sampleExpired "123456" rfl (by decide) rfl).2
  revert h2
  decide

/-- C8, amended: with a code held and `secondsRemaining = 0` the display has the timer text
"Code expired - please refresh" and still renders the held code in the code span; with a
code held and `secondsRemaining = n > 0` it shows the code and "ns remaining", `n` printed
the way a template literal prints it; with no code held (null or empty) it shows the
paragraph asking to click 'Refresh Code'.  This display is what the response panel mounts
whenever `responseData` is set. -/
theorem otp_display_policy (s : State) :
    (∀ c : String, s.totpCode = some c → c ≠ "" → s.secondsRemaining = JsNumber.int 0 →
      otpDisplay s = OtpDisplay.codeDisplay c "#ff4d4d" TimerText.expired) ∧
    (∀ (c : String) (n : Int), s.totpCode = some c → c ≠ "" →
      s.secondsRemaining = JsNumber.int n → 0 < n →
      otpDisplay s = OtpDisplay.codeDisplay c (if n < 10 then "#ff4d4d" else "#4CAF50")
        (TimerText.remaining n) ∧
      ∀ printNumber : Int → String,
        (TimerText.remaining n).text printNumber = printNumber n ++ "s remaining") ∧
    (∀ printNumber : Int → String,
      TimerText.expired.text printNumber = "Code expired - please refresh") ∧
    ((s.totpCode = none ∨ s.totpCode = some "") →
      otpDisplay s = OtpDisplay.noCode noCodeText) ∧
    (∀ d : LaunchBody, s.responseData = some d →
      (render s).response.map ResponsePanel.mfa = some (otpDisplay s)) := by
  refine ⟨?_, ?_, fun _ => rfl, ?_, ?_⟩
  · intro c hc hne hz
    simp [otpDisplay, hc, hne, hz, jsLtTen, timerText]
  · intro c n hc hne hn hpos
    refine ⟨?_, fun _ => rfl⟩
    by_cases h10 : n < 10 <;> simp [otpDisplay, hc, hne, hn, jsLtTen, timerText, hpos, h10]
  · intro h
    rcases h with h | h <;> simp [otpDisplay, h]
  · intro d hd
    simp [render, hd]

/-- Witness of C8 (amended): the expired widget, the holding widget at 17 seconds, the
initial state, and the mounted panel of the expired widget. -/
theorem otp_display_policy_witness :
    otpDisplay sampleExpired
      = OtpDisplay.codeDisplay "123456" "#ff4d4d" TimerText.expired ∧
    otpDisplay sampleHolding
      = OtpDisplay.codeDisplay "123456" "#4CAF50" (TimerText.remaining 17) ∧
    (TimerText.remaining 17).text toString = "17s remaining" ∧
    otpDisplay initialState
      = OtpDisplay.noCode "No verification code available. Click 'Refresh Code'." ∧
    (render sampleExpired).response.map ResponsePanel.mfa = some (otpDisplay sampleExpired) :=
  ⟨(otp_display_policy sampleExpired).1 "123456" rfl (by decide) rfl,
   ((otp_display_policy sampleHolding).2.1 "123456" 17 rfl (by decide) rfl (by decide)).1,
   ((otp_display_policy sampleHolding).2.1 "123456" 17 rfl (by decide) rfl (by decide)).2
     toString,
   (otp_display_policy initialState).2.2.2.1 (Or.inl rfl),
   (otp_display_policy sampleExpired).2.2.2.2 sampleCredentials rfl⟩

/-- C9 as stated fails: a widget that holds "123456" with 17 seconds left is launched again
and the 200 answer has credentials but no OTP fields; the old code and countdown stay, so
the OTP state is not `Empty`.  The same state arises from the initial state by two
launches, the first answered as in scenario A. -/
theorem launch_without_otp_not_empty_counterexample :
    (handleClick sampleHolding (fun _ => credentialsOnly)).1.totpCode = some "123456" ∧
    (handleClick sampleHolding (fun _ => credentialsOnly)).1.secondsRemaining
      = JsNumber.int 17 ∧
    isEmptyOtp (handleClick sampleHolding (fun _ => credentialsOnly)).1 = false ∧
    (run initialState
      [Event.clickLaunch, Event.launchResolved scenarioA,
       Event.clickLaunch, Event.launchResolved credentialsOnly]).1.totpCode
      = some "123456" ∧
    isEmptyOtp (run initialState
      [Event.clickLaunch, Event.launchResolved scenarioA,
       Event.clickLaunch, Event.launchResolved credentialsOnly]).1 = false := by
  decide

/-- C9, amended: for every prior state `s` and every successful (2xx) launch whose response
has no `totpCode` (in particular one with username and password and no OTP fields), the
continuation of `handleClick` stores the response and changes none of `totpCode`,
`totpExpiry`, `secondsRemaining` and `refreshingCode`: they are as in the state `mid` in
which the response arrives.  When the timer fired `k` times while the fetch was pending, the
code and expiry afterwards are those of `s` and the countdown is the one `k` ticks after
`s`.  When the prior OTP state is `Empty` (as in the initial state) it is `Empty` after
`handleClick` and stays `Empty` under any number of timer ticks. -/
theorem launch_without_otp_keeps_otp (s : State) (resp : HttpResponse LaunchBody)
    (result : LaunchBody) (hok : resp.ok = true) (hbody : resp.body = JsonResult.parsed result)
    (hc : result.totpCode = none) :
    (∀ mid : State,
      (handleClickResolve mid (FetchResult.response resp)).responseData = some result ∧
      (handleClickResolve mid (FetchResult.response resp)).totpCode = mid.totpCode ∧
      (handleClickResolve mid (FetchResult.response resp)).totpExpiry = mid.totpExpiry ∧
      (handleClickResolve mid (FetchResult.response resp)).secondsRemaining
        = mid.secondsRemaining ∧
      (handleClickResolve mid (FetchResult.response resp)).refreshingCode
        = mid.refreshingCode) ∧
    (∀ k : Nat,
      (run s (Event.clickLaunch :: (List.replicate k Event.tick ++
        [Event.launchResolved (FetchResult.response resp)]))).1.responseData
        = some result ∧
      (run s (Event.clickLaunch :: (List.replicate k Event.tick ++
        [Event.launchResolved (FetchResult.response resp)]))).1.totpCode = s.totpCode ∧
      (run s (Event.clickLaunch :: (List.replicate k Event.tick ++
        [Event.launchResolved (FetchResult.response resp)]))).1.totpExpiry = s.totpExpiry ∧
      (run s (Event.clickLaunch :: (List.replicate k Event.tick ++
        [Event.launchResolved (FetchResult.response resp)]))).1.secondsRemaining
        = (ticks k s).secondsRemaining ∧
      (isEmptyOtp s = true → ∀ j : Nat,
        isEmptyOtp (ticks j (run s (Event.clickLaunch :: (List.replicate k Event.tick ++
          [Event.launchResolved (FetchResult.response resp)]))).1) = true)) := by
  have hfalsy : truthyStr result.totpCode = false := by simp [hc, truthyStr]
  have hres := fun mid : State =>
    handleClickResolve_ok_noCode mid resp result hok hbody hfalsy
  refine ⟨?_, ?_⟩
  · intro mid
    exact ⟨by rw [hres], by rw [hres], by rw [hres], by rw [hres], by rw [hres]⟩
  · intro k
    rw [run_settle]
    obtain ⟨g1, g2, g3, _, g5⟩ := settle_state_launch s k
    have hfin : (step (ticks k (step s Event.clickLaunch).1)
        (Event.launchResolved (FetchResult.response resp))).1
        = handleClickResolve (ticks k (step s Event.clickLaunch).1)
            (FetchResult.response resp) := rfl
    rw [hfin, hres]
    refine ⟨rfl, g1, g2, g3, ?_⟩
    intro hempty j
    apply ticks_empty
    have h5 := g5 hempty
    simpa [isEmptyOtp] using h5

/-- Witness of C9 (amended): a first launch from the initial state answered with credentials
only leaves the OTP state `Empty`, also 5 ticks later; a second launch of the holding
widget, answered the same way after two ticks, leaves the code and a countdown of 15. -/
theorem launch_without_otp_keeps_otp_witness :
    isEmptyOtp (ticks 5 (run initialState
      [Event.clickLaunch, Event.launchResolved credentialsOnly]).1) = true ∧
    (run sampleHolding
      [Event.clickLaunch, Event.tick, Event.tick,
       Event.launchResolved credentialsOnly]).1.totpCode = some "123456" ∧
    (run sampleHolding
      [Event.clickLaunch, Event.tick, Event.tick,
       Event.launchResolved credentialsOnly]).1.secondsRemaining = JsNumber.int 15 :=
  ⟨((launch_without_otp_keeps_otp initialState ⟨200, JsonResult.parsed sampleCredentials⟩
      sampleCredentials (by decide) rfl rfl).2 0).2.2.2.2 (by decide) 5,
   ((launch_without_otp_keeps_otp sampleHolding ⟨200, JsonResult.parsed sampleCredentials⟩
      sampleCredentials (by decide) rfl rfl).2 2).2.1,
   ((launch_without_otp_keeps_otp sampleHolding ⟨200, JsonResult.parsed sampleCredentials⟩
      sampleCredentials (by decide) rfl rfl).2 2).2.2.2.1.trans (by decide)⟩

theorem tick_seconds_double (s : State) (n : Int) (h : s.secondsRemaining = JsNumber.int n)
    (h0 : 0 ≤ n) (hd : isDouble n = true) :
    ∃ m : Int, (tick s).secondsRemaining = JsNumber.int m ∧ 0 ≤ m ∧ m ≤ n ∧
      isDouble m = true := by
  by_cases hz : n = 0
  · exact ⟨n, by simp [tick, h, hz], h0, le_refl n, hd⟩
  · obtain ⟨h1, h2⟩ := countdownUpdater_double n h0 hd
    exact ⟨countdownUpdater n, by simp [tick, h, hz], countdownUpdater_nonneg n, h1, h2⟩

theorem step_seconds_inv (s : State) (e : Event) (he : e.secondsNonneg = true)
    (hs : ∃ n : Int, s.secondsRemaining = JsNumber.int n ∧ 0 ≤ n ∧ isDouble n = true) :
    ∃ n : Int, (step s e).1.secondsRemaining = JsNumber.int n ∧ 0 ≤ n ∧
      isDouble n = true := by
  obtain ⟨n, hn, h0, hd⟩ := hs
  cases e with
  | clickLaunch => exact ⟨n, by simp [step, (clickLaunch_fields s).2.2.1, hn], h0, hd⟩
  | clickRefresh => exact ⟨n, by simp [step, (clickRefresh_fields s).2.2.1, hn], h0, hd⟩
  | tick =>
    obtain ⟨m, hm, hm0, _, hmd⟩ := tick_seconds_double s n hn h0 hd
    exact ⟨m, by simp [step, hm], hm0, hmd⟩
  | launchResolved r =>
    simp only [step, handleClickResolve_seconds]
    unfold Event.secondsNonneg at he
    cases hw : (Event.launchResolved r).writtenSeconds with
    | none => exact ⟨n, by simp [hn], h0, hd⟩
    | some v =>
      cases v with
      | undefined => simp [hw] at he
      | null => simp [hw] at he
      | int m => exact ⟨m.val, by simp [JsNumber.stored], by simpa [hw] using he, m.property⟩
  | refreshResolved r =>
    simp only [step, refreshTotpCodeResolve_seconds]
    unfold Event.secondsNonneg at he
    cases hw : (Event.refreshResolved r).writtenSeconds with
    | none => exact ⟨n, by simp [hn], h0, hd⟩
    | some v =>
      cases v with
      | undefined => simp [hw] at he
      | null => simp [hw] at he
      | int m => exact ⟨m.val, by simp [JsNumber.stored], by simpa [hw] using he, m.property⟩

theorem run_seconds_inv (es : List Event) (s : State)
    (hes : ∀ e ∈ es, e.secondsNonneg = true)
    (hs : ∃ n : Int, s.secondsRemaining = JsNumber.int n ∧ 0 ≤ n ∧ isDouble n = true) :
    ∃ n : Int, (run s es).1.secondsRemaining = JsNumber.int n ∧ 0 ≤ n ∧
      isDouble n = true := by
  induction es generalizing s with
  | nil => simpa [run] using hs
  | cons e es ih =>
    simp only [run]
    exact ih (step s e).1 (fun x hx => hes x (List.mem_cons_of_mem e hx))
      (step_seconds_inv s e (hes e (List.mem_cons_self e es)) hs)

/-- C10 as stated fails: the server may answer with any integer.  After a launch answered
200 with `totpSecondsRemaining = -5` the state has `secondsRemaining = -5`, below 0, and
the next timer tick raises it to 0, above its previous value. -/
theorem seconds_negative_counterexample :
    (run initialState
      [Event.clickLaunch, Event.launchResolved negativeSeconds]).1.secondsRemaining
      = JsNumber.int (-5) ∧
    (tick (run initialState
      [Event.clickLaunch, Event.launchResolved negativeSeconds]).1).secondsRemaining
      = JsNumber.int 0 ∧
    ¬ (∀ es : List Event, ∃ n m : Int,
        (run initialState es).1.secondsRemaining = JsNumber.int n ∧ 0 ≤ n ∧
        (tick (run initialState es).1).secondsRemaining = JsNumber.int m ∧ m ≤ n) := by
  have h1 : (run initialState
      [Event.clickLaunch, Event.launchResolved negativeSeconds]).1.secondsRemaining
      = JsNumber.int (-5) := by decide
  refine ⟨h1, by decide, ?_⟩
  intro h
  obtain ⟨n, m, hn, h0, _, _⟩ := h [Event.clickLaunch, Event.launchResolved negativeSeconds]
  rw [h1] at hn
  have hn2 : (-5 : Int) = n := JsNumber.int.inj hn
  omega

/-- C10, amended: in every state reached from the initial state by any sequence of launch
clicks and completions, refresh clicks and completions and timer ticks in which every
seconds value written from a server response is an integer that is at least 0,
`secondsRemaining` is an integer `n >= 0`; and a timer tick in such a state leaves an
integer `m` with `0 <= m <= n`. -/
theorem seconds_nonneg_invariant (es : List Event)
    (hes : ∀ e ∈ es, e.secondsNonneg = true) :
    ∃ n m : Int,
      (run initialState es).1.secondsRemaining = JsNumber.int n ∧ 0 ≤ n ∧
      (tick (run initialState es).1).secondsRemaining = JsNumber.int m ∧ 0 ≤ m ∧ m ≤ n := by
  obtain ⟨n, hn, h0, hd⟩ :=
    run_seconds_inv es initialState hes ⟨0, rfl, le_refl 0, by decide⟩
  obtain ⟨m, hm, hm0, hmn, _⟩ := tick_seconds_double _ n hn h0 hd
  exact ⟨n, m, hn, h0, hm, hm0, hmn⟩

/-- Witness of C10 (amended): launch as in scenario A, a tick, a refresh answered with 30
seconds, a tick. -/
theorem seconds_nonneg_invariant_witness :
    ∃ n m : Int,
      (run initialState
        [Event.clickLaunch, Event.launchResolved scenarioA, Event.tick, Event.clickRefresh,
         Event.refreshResolved freshCode, Event.tick]).1.secondsRemaining
        = JsNumber.int n ∧ 0 ≤ n ∧
      (tick (run initialState
        [Event.clickLaunch, Event.launchResolved scenarioA, Event.tick, Event.clickRefresh,
         Event.refreshResolved freshCode, Event.tick]).1).secondsRemaining
        = JsNumber.int m ∧
      0 ≤ m ∧ m ≤ n :=
  seconds_nonneg_invariant
    [Event.clickLaunch, Event.launchResolved scenarioA, Event.tick, Event.clickRefresh,
     Event.refreshResolved freshCode, Event.tick]
    (by decide)

end LabLaunch
